import Mathlib

/-!
Verification development for the `ws-schema` repository (`src/WsSchema.ts`).

The development shallowly embeds the runtime semantics of the `WsSchema`
class: the outbound builder chain `send(event).data(payload)` with its
accessors `.object()` / `.stringify()` / `.to(...).emit()`, and the inbound
`receiver(on, config)` callable.  JavaScript-level behaviour that the code
relies on is made explicit: truthiness, `typeof`, property access on the
decoded JSON value (which throws a TypeError on `null`), coercion of a
property key to a string, and the `Set`-based deduplication used by `emit`.

The external JSON codec (`JSON.parse` / `JSON.stringify`) is modelled by an
executable parser and printer over a `Json` value type covering the JSON
fragment exercised here (null, booleans, integer numerals, strings with the
common escapes, arrays, objects).

Effects are reified: the receiver returns a trace of hook and handler
invocations together with its result (normal return value or escaped
exception), and the sender operations return their value together with the
list of side effects they perform.
-/

namespace WsSchemaModel

/-- JSON values as produced by `JSON.parse` (integer numerals only). -/
inductive Json where
  | null
  | bool (b : Bool)
  | num (n : Int)
  | str (s : String)
  | arr (elems : List Json)
  | obj (fields : List (String × Json))
deriving Repr

/-- Result of a JavaScript property access: either `undefined` or a value. -/
inductive JsValue where
  | undefined
  | val (j : Json)
deriving Repr

/-- Exceptions that can arise while the receiver body runs. -/
inductive JsError where
  | typeError
  | syntaxError
  | zodError
deriving Repr, DecidableEq

/-- JavaScript truthiness of a JSON value. -/
def Json.truthy : Json → Bool
  | .null => false
  | .bool b => b
  | .num n => n != 0
  | .str s => s != ""
  | .arr _ => true
  | .obj _ => true

/-- JavaScript truthiness of a possibly-`undefined` value. -/
def JsValue.truthy : JsValue → Bool
  | .undefined => false
  | .val j => j.truthy

/-- Result of the JavaScript `typeof` operator. -/
def JsValue.typeofStr : JsValue → String
  | .undefined => "undefined"
  | .val .null => "object"
  | .val (.bool _) => "boolean"
  | .val (.num _) => "number"
  | .val (.str _) => "string"
  | .val (.arr _) => "object"
  | .val (.obj _) => "object"

mutual

/-- JavaScript `String(v)` conversion of a JSON value (used when a non-string
value is coerced to a property key, as in `this.validators[json.event]`). -/
def jsToDisplayString : Json → String
  | .null => "null"
  | .bool true => "true"
  | .bool false => "false"
  | .num n => toString n
  | .str s => s
  | .arr xs => displayArr xs
  | .obj _ => "[object Object]"

/-- JavaScript `Array.prototype.toString` joins elements with `,`, rendering
`null` entries as the empty string. -/
def displayArr : List Json → String
  | [] => ""
  | [.null] => ""
  | [j] => jsToDisplayString j
  | .null :: rest => "," ++ displayArr rest
  | j :: rest => jsToDisplayString j ++ "," ++ displayArr rest

end

/-- Coercion of a JavaScript value to a property key, as performed by an
indexing expression such as `this.validators[json.event]`. -/
def JsValue.toPropKey : JsValue → String
  | .undefined => "undefined"
  | .val j => jsToDisplayString j

/-- JavaScript property access `v.k` on a decoded JSON value: throws a
TypeError when the value is `null`, yields `undefined` when the value is not
an object or lacks the field, and the field's value otherwise. -/
def Json.getProp : Json → String → Except JsError JsValue
  | .null, _ => .error .typeError
  | .obj fields, k =>
      match fields.lookup k with
      | some v => .ok (.val v)
      | none => .ok .undefined
  | _, _ => .ok .undefined

/-- Escape of one character inside a JSON string literal. -/
def jsonEscapeChar (c : Char) : String :=
  if c = '"' then "\\\""
  else if c = '\\' then "\\\\"
  else if c = '\n' then "\\n"
  else if c = '\t' then "\\t"
  else if c = '\r' then "\\r"
  else String.singleton c

/-- Rendering of a string as a quoted JSON string literal. -/
def jsonQuote (s : String) : String :=
  "\"" ++ String.join (s.toList.map jsonEscapeChar) ++ "\""

mutual

/-- Model of `JSON.stringify` on the JSON fragment used here; object fields
are printed in insertion order, matching JavaScript. -/
def Json.stringifyJson : Json → String
  | .null => "null"
  | .bool true => "true"
  | .bool false => "false"
  | .num n => toString n
  | .str s => jsonQuote s
  | .arr xs => "[" ++ stringifyArr xs ++ "]"
  | .obj fs => "\x7b" ++ stringifyFields fs ++ "\x7d"

/-- Comma-separated rendering of array elements. -/
def stringifyArr : List Json → String
  | [] => ""
  | [j] => j.stringifyJson
  | j :: rest => j.stringifyJson ++ "," ++ stringifyArr rest

/-- Comma-separated rendering of object fields. -/
def stringifyFields : List (String × Json) → String
  | [] => ""
  | [(k, v)] => jsonQuote k ++ ":" ++ v.stringifyJson
  | (k, v) :: rest => jsonQuote k ++ ":" ++ v.stringifyJson ++ "," ++ stringifyFields rest

end

/-- Characters the JSON grammar treats as insignificant whitespace. -/
def isJsonSpace (c : Char) : Bool :=
  c = ' ' || c = '\n' || c = '\t' || c = '\r'

/-- Dropping of leading JSON whitespace. -/
def dropSpaces (cs : List Char) : List Char :=
  cs.dropWhile isJsonSpace

/-- Stripping of an expected keyword tail (the characters of `lit`) from the
front of the input. -/
def stripLit : List Char → List Char → Option (List Char)
  | [], cs => some cs
  | _ :: _, [] => none
  | l :: ls, c :: cs => if c = l then stripLit ls cs else none

/-- Table of JSON string escapes: the character after a backslash paired
with the character it denotes. -/
def escTable : List (Char × Char) :=
  [('"', '"'), ('\\', '\\'), ('/', '/'), ('n', '\n'),
   ('t', '\t'), ('r', '\r'), ('b', Char.ofNat 8), ('f', Char.ofNat 12)]

/-- Decoding of the character after a backslash in a JSON string literal. -/
def escDecode (c : Char) : Option Char :=
  escTable.lookup c

/-- Reading of a JSON string body up to the closing quote, returning the
decoded characters and the rest of the input. -/
def readQuoted : List Char → Option (List Char × List Char)
  | [] => none
  | '"' :: rest => some ([], rest)
  | '\\' :: e :: rest =>
      (escDecode e).bind fun d =>
        (readQuoted rest).map fun (s, r) => (d :: s, r)
  | c :: rest =>
      if c = '\\' then none
      else (readQuoted rest).map fun (s, r) => (c :: s, r)

/-- Splitting of the longest leading run of decimal digits from the input. -/
def readDigits (cs : List Char) : List Char × List Char :=
  cs.span Char.isDigit

/-- Numeric value of a digit run. -/
def digitsToNat (ds : List Char) : Nat :=
  ds.foldl (fun acc c => 10 * acc + (c.toNat - '0'.toNat)) 0

mutual

/-- Recursive-descent reading of one JSON value (fuel-indexed; the fuel is
an upper bound on nesting depth, supplied as the input length). -/
def readValue : Nat → List Char → Option (Json × List Char)
  | 0, _ => none
  | fuel + 1, input =>
      match dropSpaces input with
      | [] => none
      | c :: rest =>
          if c = 'n' then (stripLit ['u', 'l', 'l'] rest).map fun r => (.null, r)
          else if c = 't' then (stripLit ['r', 'u', 'e'] rest).map fun r => (.bool true, r)
          else if c = 'f' then (stripLit ['a', 'l', 's', 'e'] rest).map fun r => (.bool false, r)
          else if c = '"' then
            (readQuoted rest).map fun (s, r) => (.str (String.mk s), r)
          else if c = '[' then
            match dropSpaces rest with
            | ']' :: r => some (.arr [], r)
            | cs1 => (readArrayTail fuel cs1).map fun (xs, r) => (.arr xs, r)
          else if c = '\x7b' then
            match dropSpaces rest with
            | '\x7d' :: r => some (.obj [], r)
            | cs1 => (readObjectTail fuel cs1).map fun (fs, r) => (.obj fs, r)
          else if c = '-' then
            match readDigits rest with
            | ([], _) => none
            | (ds, r) => some (.num (-(digitsToNat ds : Int)), r)
          else if c.isDigit then
            match readDigits (c :: rest) with
            | (ds, r) => some (.num (digitsToNat ds : Int), r)
          else none

/-- Reading of the one-or-more remaining comma-separated elements of a JSON
array (the empty array is handled in `readValue`). -/
def readArrayTail : Nat → List Char → Option (List Json × List Char)
  | 0, _ => none
  | fuel + 1, input =>
      (readValue fuel input).bind fun (j, rest) =>
        match dropSpaces rest with
        | ',' :: r => (readArrayTail fuel r).map fun (xs, r1) => (j :: xs, r1)
        | ']' :: r => some ([j], r)
        | _ => none

/-- Reading of the one-or-more remaining `"key": value` members of a JSON
object (the empty object is handled in `readValue`). -/
def readObjectTail : Nat → List Char → Option (List (String × Json) × List Char)
  | 0, _ => none
  | fuel + 1, input =>
      match dropSpaces input with
      | '"' :: rest =>
          (readQuoted rest).bind fun (k, r1) =>
            match dropSpaces r1 with
            | ':' :: r2 =>
                (readValue fuel r2).bind fun (v, r3) =>
                  match dropSpaces r3 with
                  | ',' :: r4 =>
                      (readObjectTail fuel r4).map fun (fs, r5) =>
                        ((String.mk k, v) :: fs, r5)
                  | '\x7d' :: r4 => some ([(String.mk k, v)], r4)
                  | _ => none
            | _ => none
      | _ => none

end

/-- Model of `JSON.parse`: `none` corresponds to a thrown SyntaxError. -/
def Json.parse (s : String) : Option Json :=
  (readValue (s.length + 1) s.toList).bind fun (j, rest) =>
    if dropSpaces rest = [] then some j else none

/-- Transport endpoints are identified by reference; a numeric identifier
stands for one `WebSocket` object reference. -/
abbrev Socket := Nat

/-- Side effects performed by the outbound path: a write to an endpoint, or
an invocation of an event's payload validator (the send path never performs
the latter; the constructor exists so that its absence is expressible). -/
inductive SendEffect where
  | send (dest : Socket) (message : String)
  | validate (event : String) (candidate : JsValue)
deriving Repr

/-- Classification of a send-path effect as an endpoint write. -/
def SendEffect.isSend : SendEffect → Bool
  | .send _ _ => true
  | .validate _ _ => false

/-- Whether a send-path effect is a write to the endpoint `x`. -/
def SendEffect.sendsTo (x : Socket) : SendEffect → Bool
  | .send t _ => t == x
  | .validate _ _ => false

/-- Argument of `.to(...)`: a single `WebSocket` or an array of them. -/
inductive WsTarget where
  | single (sock : Socket)
  | array (socks : List Socket)
deriving Repr

/-- Normalisation `Array.isArray(to) ? to : [to]` performed by `emit`. -/
def WsTarget.asList : WsTarget → List Socket
  | .single sock => [sock]
  | .array socks => socks

/-- Iteration order of `new Set(list)`: first occurrences, in insertion
order. -/
def dedupFirst : List Socket → List Socket
  | [] => []
  | x :: xs => x :: (dedupFirst xs).filter (fun y => y ≠ x)

namespace WsSchema

/-- Accessor `.object()` of the artifact returned by `send(event).data(d)`:
the envelope value `{event, data}`, performing no side effect. -/
def object (event : String) (data : Json) : Json × List SendEffect :=
  (.obj [("event", .str event), ("data", data)], [])

/-- Accessor `.stringify()`: `JSON.stringify({event, data})`, performing no
side effect. -/
def stringify (event : String) (data : Json) : String × List SendEffect :=
  (Json.stringifyJson (.obj [("event", .str event), ("data", data)]), [])

/-- Step `.to(to)` (method `sendDataTo`): binds the target endpoints and
returns the artifact carrying `.emit()`, performing no side effect. -/
def sendDataTo (event : String) (data : Json) (dest : WsTarget) : (String × Json × WsTarget) × List SendEffect :=
  ((event, data, dest), [])

/-- Static method `emit`: deduplicates the endpoints with a `Set` and sends
the stringified envelope to each; the returned list is the sequence of
side effects performed. -/
def emit (eventID : String) (data : Json) (dest : WsTarget) : List SendEffect :=
  (dedupFirst dest.asList).map
    (fun socket => .send socket (Json.stringifyJson (.obj [("event", .str eventID), ("data", data)])))

end WsSchema

/-- Runtime behaviour of one zod validator: `parse` either throws a
`ZodError` (`none`) or returns the parsed — possibly transformed — value
(`some`). -/
abbrev Validator := JsValue → Option JsValue

/-- Runtime content of the schema registry `this.validators`. -/
abbrev Validators := List (String × Validator)

/-- Presence of each optional error hook in `config.errors`. -/
structure RConfig where
  onPayloadIsNonJSON : Bool
  onMalformedJSON : Bool
  onUnrecognisedEvent : Bool
  onInvalidPayload : Bool
deriving Repr

/-- Observable invocations performed by one receiver call, in order. -/
inductive REvent where
  | hookNonJSON (raw : String)
  | hookMalformed (received : Json)
  | hookUnrecognised (event : JsValue) (payload : JsValue)
  | hookInvalid (event : JsValue) (payload : JsValue)
  | handler (event : String) (payload : JsValue)
deriving Repr

/-- Outcome of one receiver call: the trace of hook and handler invocations
together with either the returned value or the escaped exception. -/
structure ROutcome where
  trace : List REvent
  result : Except JsError JsValue
deriving Repr

/-- Invocation of an optional hook (`config.errors?.hook?.(...)`): one trace
entry when the hook is present, none otherwise. -/
def hookIf (b : Bool) (e : REvent) : List REvent :=
  if b then [e] else []

/-- Hook invocations performed unconditionally before the handler-presence
check (src/WsSchema.ts:267-271): the truthiness-based shape check invokes
`onMalformedJSON` without stopping, then the registry lookup (indexing
`this.validators` with the coerced event key) invokes `onUnrecognisedEvent`
without stopping. -/
def preTrace (validators : Validators) (cfg : RConfig) (json : Json) (eventV dataV : JsValue) : List REvent :=
  hookIf ((!eventV.truthy || !dataV.truthy || eventV.typeofStr != "string") && cfg.onMalformedJSON)
      (.hookMalformed json)
    ++ hookIf ((validators.lookup eventV.toPropKey).isNone && cfg.onUnrecognisedEvent)
      (.hookUnrecognised eventV dataV)

/-- Body of the receiver callable after `JSON.parse` succeeded, translated
statement by statement from `WsSchema.receiver` (src/WsSchema.ts:263-289):
accessing `json.event` throws a TypeError when the decoded value is `null`;
the two non-stopping hook stages of `preTrace` run; the call returns early
only when `Object.keys(on)` does not contain the event; `parse` on the
looked-up validator (`undefined` only in untyped usage, then a TypeError)
reports a `ZodError` through `onInvalidPayload` and falls through; finally
the handler is invoked with the raw decoded `data`. -/
def receiverCore (validators : Validators) (onKeys : List String) (cfg : RConfig) (json : Json) : ROutcome :=
  match json.getProp "event" with
  | .error err => ⟨[], .error err⟩
  | .ok eventV =>
    match json.getProp "data" with
    | .error err => ⟨[], .error err⟩
    | .ok dataV =>
      match eventV with
      | .val (.str ev) =>
        if ev ∈ onKeys then
          match validators.lookup ev with
          | none => ⟨preTrace validators cfg json (.val (.str ev)) dataV, .error .typeError⟩
          | some validator =>
            match validator dataV with
            | some _ =>
                ⟨preTrace validators cfg json (.val (.str ev)) dataV
                    ++ [.handler ev dataV], .ok .undefined⟩
            | none =>
                ⟨preTrace validators cfg json (.val (.str ev)) dataV
                    ++ hookIf cfg.onInvalidPayload (.hookInvalid (.val (.str ev)) dataV)
                    ++ [.handler ev dataV], .ok .undefined⟩
        else ⟨preTrace validators cfg json (.val (.str ev)) dataV, .ok .undefined⟩
      | _ => ⟨preTrace validators cfg json eventV dataV, .ok .undefined⟩

/-- Receiver callable returned by `WsSchema.receiver(on, config)`:
`JSON.parse` failure reaches the outer catch as a SyntaxError and invokes
`onPayloadIsNonJSON`; any other exception is rethrown by the outer catch;
every normal completion returns `undefined`. `onKeys` is `Object.keys(on)`,
the events for which a handler is defined. -/
def receiver (validators : Validators) (onKeys : List String) (cfg : RConfig) : String → ROutcome :=
  fun incomingMessageString =>
    match Json.parse incomingMessageString with
    | none => ⟨hookIf cfg.onPayloadIsNonJSON (.hookNonJSON incomingMessageString), .ok .undefined⟩
    | some json =>
      match (receiverCore validators onKeys cfg json).result with
      | .error .syntaxError =>
          ⟨(receiverCore validators onKeys cfg json).trace
              ++ hookIf cfg.onPayloadIsNonJSON (.hookNonJSON incomingMessageString), .ok .undefined⟩
      | _ => receiverCore validators onKeys cfg json

/-- Runtime behaviour of `z.string()`. -/
def vString : Validator
  | .val (.str s) => some (.val (.str s))
  | _ => none

/-- Runtime behaviour of a validator accepting any payload. -/
def vAny : Validator := fun v => some v

/-- Validator that accepts every payload but returns a transformed value,
observing whether the dispatch uses the parse output or the raw data. -/
def vNormalize : Validator := fun _ => some (.val (.str "NORMALIZED"))

/-- Configuration with all four error hooks present. -/
def cfgAll : RConfig := ⟨true, true, true, true⟩

/-- Configuration with no error hooks. -/
def cfgNone : RConfig := ⟨false, false, false, false⟩

/-- Membership in an optional hook invocation forces equality with it. -/
theorem mem_hookIf {b : Bool} {x e : REvent} (h : e ∈ hookIf b x) : e = x := by
  unfold hookIf at h
  split at h
  · simpa using h
  · simp at h

/-- No handler invocation occurs among the pre-handler hook stages. -/
theorem handler_not_mem_preTrace {V : Validators} {cfg : RConfig} {j : Json}
    {e1 d1 : JsValue} {ev : String} {d : JsValue}
    (h : REvent.handler ev d ∈ preTrace V cfg j e1 d1) : False := by
  rcases List.mem_append.mp h with h1 | h1 <;> exact REvent.noConfusion (mem_hookIf h1)

/-- Every branch of the receiver body either returns `undefined` or lets an
exception escape. -/
theorem receiverCore_result_shape (V : Validators) (H : List String) (cfg : RConfig) (j : Json) :
    (receiverCore V H cfg j).result = .ok .undefined ∨
      ∃ e, (receiverCore V H cfg j).result = .error e := by
  unfold receiverCore
  repeat' split
  all_goals first
    | exact Or.inl rfl
    | exact Or.inr ⟨_, rfl⟩

/-- Whenever the receiver body invokes a handler, the payload passed is the
`data` field of the decoded envelope. -/
theorem receiverCore_handler_raw {V : Validators} {H : List String} {cfg : RConfig} {j : Json}
    {ev : String} {d : JsValue}
    (h : REvent.handler ev d ∈ (receiverCore V H cfg j).trace) :
    j.getProp "data" = .ok d := by
  unfold receiverCore at h
  split at h
  · simp at h
  split at h
  · simp at h
  split at h
  · split at h
    · split at h
      · exact absurd h handler_not_mem_preTrace
      · split at h
        · rcases List.mem_append.mp h with h1 | h1
          · exact absurd h1 handler_not_mem_preTrace
          · rcases List.mem_singleton.mp h1 with h2
            injection h2 with h3 h4
            subst h4
            assumption
        · rcases List.mem_append.mp h with h1 | h1
          · rcases List.mem_append.mp h1 with h2 | h2
            · exact absurd h2 handler_not_mem_preTrace
            · exact REvent.noConfusion (mem_hookIf h2)
          · rcases List.mem_singleton.mp h1 with h2
            injection h2 with h3 h4
            subst h4
            assumption
    · exact absurd h handler_not_mem_preTrace
  · exact absurd h handler_not_mem_preTrace

/-- Counting writes to one endpoint among the mapped send effects counts the
endpoint's occurrences. -/
theorem length_filter_sendsTo (m : String) (x : Socket) (l : List Socket) :
    ((l.map (fun sck => SendEffect.send sck m)).filter (fun e => e.sendsTo x)).length
      = l.count x := by
  rw [List.filter_map, List.length_map, ← List.countP_eq_length_filter]
  rfl

/-- Set-deduplication preserves membership. -/
theorem mem_dedupFirst {x : Socket} : ∀ {l : List Socket}, x ∈ dedupFirst l ↔ x ∈ l := by
  intro l
  induction l with
  | nil => simp [dedupFirst]
  | cons a l ih =>
      by_cases hxa : x = a
      · subst hxa
        simp [dedupFirst]
      · simp [dedupFirst, List.mem_filter, ih, hxa]

/-- Set-deduplication yields a duplicate-free list. -/
theorem nodup_dedupFirst : ∀ (l : List Socket), (dedupFirst l).Nodup
  | [] => List.nodup_nil
  | a :: l => by
      rw [dedupFirst, List.nodup_cons]
      constructor
      · intro hmem
        have := (List.mem_filter.mp hmem).2
        simp at this
      · exact ((nodup_dedupFirst l).filter _)

/-- Each endpoint occurs in the deduplicated list once if bound, else not at
all. -/
theorem count_dedupFirst (x : Socket) (l : List Socket) :
    (dedupFirst l).count x = if x ∈ l then 1 else 0 := by
  by_cases hx : x ∈ l
  · rw [if_pos hx]
    exact List.count_eq_one_of_mem (nodup_dedupFirst l) (mem_dedupFirst.mpr hx)
  · rw [if_neg hx]
    exact List.count_eq_zero.mpr (fun h => hx (mem_dedupFirst.mp h))

/-- C1 (code defect exhibited): for the schema `{message: z.string()}` with a
handler and the `InvalidPayload` hook configured, the message
`{"event":"message","data":5}` — whose payload fails the validator — makes
the receiver invoke the `InvalidPayload` hook once with the event name and
raw payload, and then invoke the handler anyway with that invalid payload,
contradicting the claim (and the README) that the handler is never invoked
when validation fails. -/
theorem c1_invalid_payload_still_dispatches :
    receiver [("message", vString)] ["message"] cfgAll
        "\x7b\"event\":\"message\",\"data\":5\x7d"
      = ⟨[.hookInvalid (.val (.str "message")) (.val (.num 5)),
          .handler "message" (.val (.num 5))], .ok .undefined⟩ := by
  rfl

/-- C2 (code defect exhibited): the inbound string `"null"` is valid JSON
decoding to `null`; the shape check's property access `json.event` then
throws a TypeError, which the outer catch rethrows because it is not a
SyntaxError — so a receiver with no hooks configured lets an exception
escape, contradicting the claimed containment. -/
theorem c2_null_message_exception_escapes :
    receiver [("message", vString)] ["message"] cfgNone "null"
      = ⟨[], .error .typeError⟩ := by
  rfl

/-- C3 (code defect exhibited): the message `{"event":"heartbeat","data":0}`
is classified `MalformedEnvelope` (the `onMalformedJSON` hook fires because
`0` is falsy), yet processing does not stop: the validator is consulted and
the handler is invoked in the same call, contradicting the claim that the
`MalformedEnvelope` stage is terminal. -/
theorem c3_malformed_envelope_not_terminal :
    receiver [("heartbeat", vAny)] ["heartbeat"] cfgAll
        "\x7b\"event\":\"heartbeat\",\"data\":0\x7d"
      = ⟨[.hookMalformed (.obj [("event", .str "heartbeat"), ("data", .num 0)]),
          .handler "heartbeat" (.val (.num 0))], .ok .undefined⟩ := by
  rfl

/-- C4 (code defect exhibited): the message
`{"event":"heartbeat","data":false}` has a string `event` and a present
`data` field whose value is merely falsy, and `heartbeat`'s validator
accepts it; the code nevertheless classifies it `MalformedEnvelope`
(`onMalformedJSON` fires), because the shape check tests truthiness instead
of presence — contradicting the claim that such messages pass the shape
check. -/
theorem c4_falsy_data_classified_malformed :
    receiver [("heartbeat", vAny)] ["heartbeat"] cfgAll
        "\x7b\"event\":\"heartbeat\",\"data\":false\x7d"
      = ⟨[.hookMalformed (.obj [("event", .str "heartbeat"), ("data", .bool false)]),
          .handler "heartbeat" (.val (.bool false))], .ok .undefined⟩ := by
  rfl

/-- C5 (code defect exhibited): the single message
`{"event":"nope","data":0}` makes one receiver call invoke two different
error hooks — `onMalformedJSON` (falsy `data`) and then `onUnrecognisedEvent`
(`nope` is not in the schema) — contradicting the claim that at most one of
the four error hooks is invoked per message. -/
theorem c5_two_hooks_fire_in_one_call :
    receiver [("message", vString)] ["message"] cfgAll
        "\x7b\"event\":\"nope\",\"data\":0\x7d"
      = ⟨[.hookMalformed (.obj [("event", .str "nope"), ("data", .num 0)]),
          .hookUnrecognised (.val (.str "nope")) (.val (.num 0))], .ok .undefined⟩ := by
  rfl

/-- C6: for the schema `{message: string}`,
`send("message").data("hi").stringify()` returns exactly
`'{"event":"message","data":"hi"}'`, and feeding that string to a receiver
with a handler for `message` invokes the handler exactly once with `"hi"`
(and invokes no hook, even with all hooks configured). -/
theorem c6_round_trip_concrete :
    (WsSchema.stringify "message" (.str "hi")).1
        = "\x7b\"event\":\"message\",\"data\":\"hi\"\x7d" ∧
    receiver [("message", vString)] ["message"] cfgAll
        ((WsSchema.stringify "message" (.str "hi")).1)
      = ⟨[.handler "message" (.val (.str "hi"))], .ok .undefined⟩ :=
  ⟨rfl, rfl⟩

/-- C7: for every event, payload and endpoint list, `.to(...).emit()`
performs exactly one send of the stringified envelope per distinct endpoint
reference; in particular binding `[a, a, b]` sends exactly once to `a` and
once to `b`. -/
theorem c7_emit_dedup :
    (∀ (event : String) (data : Json) (socks : List Socket) (x : Socket),
      ((WsSchema.emit event data (.array socks)).filter (fun e => e.sendsTo x)).length
        = if x ∈ socks then 1 else 0) ∧
    WsSchema.emit "message" (.str "hi") (.array [0, 0, 1])
      = [.send 0 "\x7b\"event\":\"message\",\"data\":\"hi\"\x7d",
         .send 1 "\x7b\"event\":\"message\",\"data\":\"hi\"\x7d"] := by
  constructor
  · intro event data socks x
    unfold WsSchema.emit
    rw [length_filter_sendsTo, count_dedupFirst]
    rfl
  · rfl

/-- C8: the outbound path is pure except for `emit`: `.object()`,
`.stringify()` and `.to()` perform no side effect, and every effect `emit`
performs is an endpoint write — in particular no event's payload validator
is ever invoked at send time. -/
theorem c8_send_path_pure :
    ∀ (event : String) (data : Json) (dest : WsTarget),
      (WsSchema.object event data).2 = [] ∧
      (WsSchema.stringify event data).2 = [] ∧
      (WsSchema.sendDataTo event data dest).2 = [] ∧
      (WsSchema.emit event data dest).all SendEffect.isSend = true := by
  intro event data dest
  refine ⟨rfl, rfl, rfl, ?_⟩
  unfold WsSchema.emit
  simp [List.all_eq_true, SendEffect.isSend]

/-- C9 (claim refuted): two receiver calls with different outcomes — one
dispatches the handler, the other fails as non-JSON — return identical
values, so the returned value does not describe what happened. -/
theorem c9_counterexample_return_constant :
    (receiver [("message", vString)] ["message"] cfgNone
        "\x7b\"event\":\"message\",\"data\":\"hi\"\x7d").result
      = (receiver [("message", vString)] ["message"] cfgNone "hello").result ∧
    (receiver [("message", vString)] ["message"] cfgNone
        "\x7b\"event\":\"message\",\"data\":\"hi\"\x7d").trace
      ≠ (receiver [("message", vString)] ["message"] cfgNone "hello").trace := by
  refine ⟨rfl, ?_⟩
  intro h
  rw [show (receiver [("message", vString)] ["message"] cfgNone
        "\x7b\"event\":\"message\",\"data\":\"hi\"\x7d").trace
      = [REvent.handler "message" (.val (.str "hi"))] from rfl,
    show (receiver [("message", vString)] ["message"] cfgNone "hello").trace
      = [] from rfl] at h
  exact List.noConfusion h

/-- C9 as amended: the receiver callable conveys its outcome only through
hook and handler side effects; whenever it returns normally the returned
value is `undefined`, for every schema, handler table, hook configuration
and inbound string. -/
theorem c9_amended_returns_undefined :
    ∀ (V : Validators) (H : List String) (cfg : RConfig) (s : String),
      (receiver V H cfg s).result = .ok .undefined ∨
        ∃ e, (receiver V H cfg s).result = .error e := by
  intro V H cfg s
  unfold receiver
  split
  · exact Or.inl rfl
  · split
    · exact Or.inl rfl
    · exact receiverCore_result_shape _ _ _ _

/-- C10: whenever dispatch occurs, the handler receives exactly the raw
decoded `data` field of the envelope — for every validator map, including
validators whose parse returns a transformed value, so any normalization
the validator performs is discarded. -/
theorem c10_handler_receives_raw_data :
    ∀ (V : Validators) (H : List String) (cfg : RConfig) (s : String) (ev : String) (d : JsValue),
      REvent.handler ev d ∈ (receiver V H cfg s).trace →
      ∃ j, Json.parse s = some j ∧ j.getProp "data" = .ok d := by
  intro V H cfg s ev d h
  unfold receiver at h
  split at h
  · exact absurd (mem_hookIf h) (fun h2 => REvent.noConfusion h2)
  · rename_i json heq
    split at h
    · rcases List.mem_append.mp h with h1 | h1
      · exact ⟨json, heq, receiverCore_handler_raw h1⟩
      · exact absurd (mem_hookIf h1) (fun h2 => REvent.noConfusion h2)
    · exact ⟨json, heq, receiverCore_handler_raw h⟩

/-- Witness for C10 at a concrete input: with a validator whose parse
returns the transformed value `"NORMALIZED"`, the handler still receives
the raw payload `"hi"`, which is the `data` field of the decoded
envelope. -/
theorem c10_witness_normalizing_validator :
    (REvent.handler "message" (.val (.str "hi")) ∈
        (receiver [("message", vNormalize)] ["message"] cfgAll
          "\x7b\"event\":\"message\",\"data\":\"hi\"\x7d").trace) ∧
    ∃ j, Json.parse "\x7b\"event\":\"message\",\"data\":\"hi\"\x7d" = some j ∧
        j.getProp "data" = .ok (.val (.str "hi")) := by
  have hmem : REvent.handler "message" (.val (.str "hi")) ∈
      (receiver [("message", vNormalize)] ["message"] cfgAll
        "\x7b\"event\":\"message\",\"data\":\"hi\"\x7d").trace := by
    rw [show (receiver [("message", vNormalize)] ["message"] cfgAll
          "\x7b\"event\":\"message\",\"data\":\"hi\"\x7d").trace
        = [REvent.handler "message" (.val (.str "hi"))] from rfl]
    exact List.mem_singleton.mpr rfl
  exact ⟨hmem, c10_handler_receives_raw_data _ _ _ _ _ _ hmem⟩

end WsSchemaModel
